import Mathlib

/-!
Shallow embedding of `platformio_api/libbuild.py`: the script publishes a
library's example sketches and a generated Travis CI configuration to a
per-library branch (`library-<id>`) of a shared git repository.

File-system state, git effects and HTTP are modelled explicitly as data;
Python exceptions are modelled by the `Exc` inductive together with
`Except` / recorded error fields.
-/

/-- A parsed `_version.json` style document (the registry's `version` value):
the `name` field is interpolated into the commit message and the CI config;
`meta` stands for the rest of the JSON payload. -/
structure Version where
  name : String
  meta : String
deriving DecidableEq, Repr

/-- Python exceptions the script can raise. -/
inductive Exc where
  | remoteBranchNotFound (branch : String)
  | gitCommandError (stderr : String)
  | indexError
  | osError (msg : String)
deriving DecidableEq, Repr

/-- Content of `_version.json` on disk: parsed JSON, or malformed text on
which `json.load` raises. -/
inductive VFile where
  | parsed (v : Version)
  | malformed
deriving DecidableEq, Repr

/-- Working tree of the cloned branch: the three artifacts the script
touches. `examplesDir = none` means the `examples` directory is absent;
otherwise it lists (filename, content) pairs. -/
structure WorkTree where
  versionFile : Option VFile
  examplesDir : Option (List (String × String))
  travisFile : Option String
deriving DecidableEq, Repr

/-- Outcome of `git clone` for one branch of the remote: either the branch's
working tree, or a `GitCommandError` carrying `stderr`. -/
inductive CloneResult where
  | success (tree : WorkTree)
  | failure (stderr : String)

/-- External world of one publish call: the remote repository (clone outcome
per branch name), the library's external example directory
(`none` = `os.listdir` raises), whether `push` succeeds, the original
working directory and the `mkdtemp` path. -/
structure Env where
  clone : String → CloneResult
  libexampleDir : Option (List (String × String))
  pushOk : Bool
  cwd0 : String
  tmpDir : String

/-- Static platform → boards table (source lines 45-48). -/
def BOARDS : List (String × List String) :=
  [("atmelavr", ["uno", "leonardo", "megaatmega2560"]),
   ("teensy", ["teensy20", "teensy31"])]

/-- `get_all_boards_by_platforms` (source lines 74-79): iterate the external
registry's board → info map (`get_boards()`, modelled as an association list
board name → optional platform) and keep each board whose platform is a
member of `platforms`. -/
def get_all_boards_by_platforms (registry : List (String × Option String))
    (platforms : List String) : List String :=
  registry.foldl
    (fun board_names bi =>
      match bi.2 with
      | some p => if p ∈ platforms then board_names ++ [bi.1] else board_names
      | none => board_names)
    []

/-- `get_boards_by_platforms` (source lines 82-86): concatenate the static
table's entries for each listed platform, defaulting to `[]`. -/
def get_boards_by_platforms (platforms : List String) : List String :=
  platforms.foldl (fun board_names p => board_names ++ (BOARDS.lookup p).getD []) []

/-- Python's `str.split("\n")` on the character list: always at least one
(possibly empty) piece. -/
def splitNL : List Char → List (List Char)
  | [] => [[]]
  | c :: rest =>
    if c = '\n' then [] :: splitNL rest
    else
      match splitNL rest with
      | [] => [[c]]
      | h :: t => (c :: h) :: t

/-- Python's `stderr.split("\n")` as a list of strings. -/
def py_split_newline (s : String) : List String :=
  (splitNL s.data).map String.mk

/-- The message `shallow_clone_branch` looks for in `stderr`
(source lines 67-68). -/
def expected_message (branch : String) : String :=
  "fatal: Remote branch " ++ branch ++ " not found in upstream origin"

/-- `shallow_clone_branch` (source lines 51-71): clone the branch; on a
`GitCommandError`, raise `RemoteBranchNotFound` when `stderr` is non-empty
and its second-to-last line (`stderr.split("\n")[-2]`) equals the expected
message; re-raise the original error otherwise.  When `stderr` is non-empty
but has fewer than two pieces, the Python subscript `[-2]` itself raises an
`IndexError`. -/
def shallow_clone_branch (cl : String → CloneResult) (branch : String) :
    Except Exc WorkTree :=
  match cl branch with
  | .success t => .ok t
  | .failure stderr =>
    if stderr = "" then .error (.gitCommandError stderr)
    else
      let parts := py_split_newline stderr
      if 2 ≤ parts.length then
        if parts.getD (parts.length - 2) "" = expected_message branch then
          .error (.remoteBranchNotFound branch)
        else .error (.gitCommandError stderr)
      else .error .indexError

/-- A failed clone's `stderr` reports that the remote branch was not found:
non-empty, at least two newline-split pieces, and the second-to-last piece
equals the expected message (source lines 67-69). -/
def branch_not_found_reported (branch stderr : String) : Prop :=
  stderr ≠ "" ∧ 2 ≤ (py_split_newline stderr).length ∧
    (py_split_newline stderr).getD ((py_split_newline stderr).length - 2) "" =
      expected_message branch

instance (b s : String) : Decidable (branch_not_found_reported b s) := by
  unfold branch_not_found_reported
  exact inferInstance

def VERSION_FILENAME : String := "_version.json"

def TRAVIS_FILENAME : String := ".travis.yml"

/-- `COMMIT_MESSAGE.format(library_version=...)` (source line 20). -/
def COMMIT_MESSAGE_format (library_version : String) : String :=
  "Update library to version " ++ library_version

/-- The fixed part of `TRAVIS_CONFIG_TEMPLATE` before the interpolated
environment lines (source lines 22-35). -/
def TRAVIS_HEADER : String :=
  "language: python\npython:\n    - \"2.7\"\n\nsudo: false\n\n# Cache PlatformIO packages using Travis CI container-based infrastructure\ncache:\n    directories:\n        - \"~/.platformio\"\n\nenv:\n"

/-- The fixed part of `TRAVIS_CONFIG_TEMPLATE` between the environment lines
and the interpolated version name (source lines 36-41). -/
def TRAVIS_MIDDLE : String :=
  "\n\ninstall:\n    - pip install -U platformio\n\nscript:\n    - platformio --force lib install --version="

/-- The build-verification line of the template (source line 42), with the
board flags interpolated. -/
def travis_ci_line (boards : String) : String :=
  "    - platformio --force ci " ++ boards ++ "\n"

/-- `TRAVIS_CONFIG_TEMPLATE.format(envs=..., boards=..., library_version=...,
library_id=...)` (source lines 22-43). -/
def TRAVIS_CONFIG_TEMPLATE_format (envs boards library_version library_id : String) :
    String :=
  TRAVIS_HEADER ++ envs ++ TRAVIS_MIDDLE ++ library_version ++ " " ++ library_id ++
    "\n" ++ travis_ci_line boards

/-- The `boards` string built at source lines 138-139:
joining `"--board=" + b` over `get_boards_by_platforms(platforms)` with a
single space. -/
def board_flags (platforms : List String) : String :=
  String.intercalate " " ((get_boards_by_platforms platforms).map (fun b => "--board=" ++ b))

/-- The `envs` string built at source lines 140-141:
one `    - PLATFORMIO_CI_SRC=<path>` line per staged example path. -/
def env_lines (paths : List String) : String :=
  String.intercalate "\n" (paths.map (fun p => "    - PLATFORMIO_CI_SRC=" ++ p))

example : get_boards_by_platforms ["atmelavr"] = ["uno", "leonardo", "megaatmega2560"] := by
  decide

example : get_boards_by_platforms ["zzz"] = [] := by decide

example : get_all_boards_by_platforms [("zboard", some "atmelavr")] ["atmelavr"] = ["zboard"] := by
  decide

example : py_split_newline "a\nb" = ["a", "b"] := by decide

example : py_split_newline "" = [""] := by decide

example : branch_not_found_reported "b"
    "x\nfatal: Remote branch b not found in upstream origin\n" := by decide

/-- Observable outcome of the `try` body of `think_of_name_later`
(source lines 93-155): the working tree as last seen (none if no clone
succeeded), commit messages made, pushes performed (branch name and pushed
tree), the exception that reached the catch-all (`none` = normal return),
and whether the version gate skipped the publish. -/
structure BodyOut where
  tree : Option WorkTree
  commits : List String
  pushes : List (String × WorkTree)
  err : Option Exc
  skipped : Bool
deriving DecidableEq, Repr

/-- Source lines 94-103: clone `branch_name`; on `RemoteBranchNotFound`,
clone `master` and create `branch_name` as an orphan branch
(`git checkout --orphan` keeps master's working tree). -/
def cloneStep (env : Env) (branch_name : String) : Except Exc WorkTree :=
  match shallow_clone_branch env.clone branch_name with
  | .ok t => .ok t
  | .error (.remoteBranchNotFound _) =>
    match shallow_clone_branch env.clone "master" with
    | .ok t => .ok t
    | .error e => .error e
  | .error e => .error e

/-- Result of the version gate at source lines 110-117. -/
inductive Gate where
  | skip
  | loadError
  | proceed
deriving DecidableEq, Repr

/-- Source lines 110-117: if `_version.json` exists, parse it (`json.load`
raises on malformed content) and skip when it equals the requested version
and `force` is not set. -/
def versionGate (t : WorkTree) (version : Version) (force : Bool) : Gate :=
  match t.versionFile with
  | none => .proceed
  | some .malformed => .loadError
  | some (.parsed staged_version) =>
    if version = staged_version ∧ force = false then .skip else .proceed

/-- `shutil.copyfile` into the examples directory: overwrite an existing
entry with the same filename, else append. -/
def copyfile_into (dir : List (String × String)) (name content : String) :
    List (String × String) :=
  if name ∈ dir.map Prod.fst then
    dir.map (fun e => if e.1 = name then (name, content) else e)
  else dir ++ [(name, content)]

/-- The copy loop of source lines 129-135 applied to the freshly created
empty `examples` directory. -/
def copy_examples (files : List (String × String)) : List (String × String) :=
  files.foldl (fun acc f => copyfile_into acc f.1 f.2) []

/-- Source lines 118-152, run once the version gate lets the publish
proceed: write `_version.json`, clear and repopulate `examples/`, write the
Travis config, commit, and push (push may fail). -/
def stageAndCommit (env : Env) (branch_name : String) (t : WorkTree)
    (lib_id : Nat) (version : Version) (platforms : List String) : BodyOut :=
  let t1 : WorkTree := { t with versionFile := some (.parsed version) }
  let t2 : WorkTree := { t1 with examplesDir := some [] }
  match env.libexampleDir with
  | none =>
    { tree := some t2, commits := [], pushes := [],
      err := some (.osError "listdir"), skipped := false }
  | some files =>
    let t3 : WorkTree := { t2 with examplesDir := some (copy_examples files) }
    let example_files := files.map (fun f => "examples/" ++ f.1)
    let travis := TRAVIS_CONFIG_TEMPLATE_format (env_lines example_files)
      (board_flags platforms) version.name (toString lib_id)
    let t4 : WorkTree := { t3 with travisFile := some travis }
    let msg := COMMIT_MESSAGE_format version.name
    if env.pushOk then
      { tree := some t4, commits := [msg], pushes := [(branch_name, t4)],
        err := none, skipped := false }
    else
      { tree := some t4, commits := [msg], pushes := [],
        err := some (.osError "push"), skipped := false }

/-- The `try` body of `think_of_name_later` (source lines 93-152): clone
(with orphan-branch fallback), version gate, then staging/commit/push.  Any
exception is recorded in `err` (it reaches the catch-all at lines 154-155). -/
def publishBody (env : Env) (lib_id : Nat) (version : Version)
    (platforms : List String) (force : Bool) : BodyOut :=
  let branch_name := "library-" ++ toString lib_id
  match cloneStep env branch_name with
  | .error e =>
    { tree := none, commits := [], pushes := [], err := some e, skipped := false }
  | .ok t0 =>
    match versionGate t0 version force with
    | .skip =>
      { tree := some t0, commits := [], pushes := [], err := none, skipped := true }
    | .loadError =>
      { tree := some t0, commits := [], pushes := [],
        err := some (.osError "json load"), skipped := false }
    | .proceed => stageAndCommit env branch_name t0 lib_id version platforms

/-- Observable outcome of a whole `think_of_name_later` call: the body's
outcome, the working directory and temporary-directory state after the
`finally` block, and the exception escaping the call (`none` = returns
normally). -/
structure PublishResult where
  body : BodyOut
  finalCwd : String
  tmpDirExists : Bool
  raised : Option Exc
deriving DecidableEq, Repr

/-- `think_of_name_later` (source lines 89-159): remember the working
directory, make the temporary checkout, run the body; the catch-all at
lines 154-155 logs and swallows any exception of the body, and the
`finally` at lines 157-159 restores the working directory and removes the
temporary directory. -/
def think_of_name_later (env : Env) (lib_id : Nat) (version : Version)
    (platforms : List String) (force : Bool) : PublishResult :=
  let original_working_directory := env.cwd0
  let b := publishBody env lib_id version platforms force
  { body := b
    finalCwd := original_working_directory
    tmpDirExists := false
    raised := none }

/-- The fields `think_of_name_later_by_id` extracts from the registry's JSON
response (source line 165). -/
structure RegInfo where
  version : Version
  platforms : List String
deriving DecidableEq, Repr

/-- `think_of_name_later_by_id` (source lines 162-165): fetch
`http://api.platformio.org/lib/info/<id>` (`http_get` models
`requests.get(...).json()`, whose failures it propagates), then call
`think_of_name_later` with the response's `version` and `platforms` fields
(`force` defaults to false). -/
def think_of_name_later_by_id (http_get : String → Except Exc RegInfo)
    (env : Env) (lib_id : Nat) : Except Exc PublishResult :=
  match http_get ("http://api.platformio.org/lib/info/" ++ toString lib_id) with
  | .error e => .error e
  | .ok info =>
    .ok (think_of_name_later env lib_id info.version info.platforms false)

/-! ### Concrete data used by examples, witnesses and counterexamples -/

def demoVersion : Version := { name := "1.2.3", meta := "m" }

def emptyTree : WorkTree :=
  { versionFile := none, examplesDir := none, travisFile := none }

/-- A tree already staged for `demoVersion`, holding an old example file. -/
def stagedTree : WorkTree :=
  { versionFile := some (.parsed demoVersion)
    examplesDir := some [("old.ino", "stale")]
    travisFile := some "old travis" }

/-- A remote where branch `library-7` exists with an empty tree, the example
source holds two sketches, and push succeeds. -/
def demoEnv : Env :=
  { clone := fun b => if b = "library-7" then .success emptyTree else .failure "boom"
    libexampleDir := some [("Blink.ino", "void loop()"), ("Fade.ino", "analogWrite")]
    pushOk := true
    cwd0 := "/home/user"
    tmpDir := "/tmp/pioapi-libbuild-7-abc" }

/-- Same remote but branch `library-7` is already staged at `demoVersion`. -/
def demoEnvStaged : Env :=
  { clone := fun b => if b = "library-7" then .success stagedTree else .failure "boom"
    libexampleDir := some [("new.ino", "fresh")]
    pushOk := true
    cwd0 := "/home/user"
    tmpDir := "/tmp/pioapi-libbuild-7-def" }

/-- A remote where every clone fails with a `stderr` that does not report a
missing branch. -/
def demoEnvGitFail : Env :=
  { clone := fun _ => .failure "error: x\nfatal: other\n"
    libexampleDir := some []
    pushOk := true
    cwd0 := "/home/user"
    tmpDir := "/tmp/pioapi-libbuild-9-ghi" }

example :
    (think_of_name_later demoEnv 7 demoVersion ["atmelavr"] false).body.commits =
      ["Update library to version 1.2.3"] := by decide

example :
    (think_of_name_later demoEnvStaged 7 demoVersion ["atmelavr"] false).body.pushes =
      [] := by decide

/-! ### Helper lemmas -/

theorem copyfile_into_of_notMem (acc : List (String × String)) (n c : String)
    (h : n ∉ acc.map Prod.fst) : copyfile_into acc n c = acc ++ [(n, c)] := by
  unfold copyfile_into
  rw [if_neg h]

theorem copy_examples_foldl (files : List (String × String))
    (hnd : (files.map Prod.fst).Nodup) :
    ∀ acc : List (String × String), (∀ x ∈ files, x.1 ∉ acc.map Prod.fst) →
      files.foldl (fun a f => copyfile_into a f.1 f.2) acc = acc ++ files := by
  induction files with
  | nil => intro acc _; simp
  | cons f rest ih =>
    intro acc hdisj
    obtain ⟨n, c⟩ := f
    simp only [List.map_cons, List.nodup_cons] at hnd
    simp only [List.foldl_cons]
    rw [copyfile_into_of_notMem acc n c (hdisj (n, c) (List.mem_cons_self _ _))]
    rw [ih hnd.2 (acc ++ [(n, c)]) ?_]
    · simp
    · intro x hx
      simp only [List.map_append, List.mem_append]
      rintro (hmem | hmem)
      · exact hdisj x (List.mem_cons_of_mem _ hx) hmem
      · simp only [List.map_cons, List.map_nil, List.mem_singleton] at hmem
        exact hnd.1 (hmem ▸ List.mem_map_of_mem Prod.fst hx)

/-- With distinct filenames (as `os.listdir` yields), the copy loop
reproduces the source directory exactly. -/
theorem copy_examples_eq_self (files : List (String × String))
    (hnd : (files.map Prod.fst).Nodup) : copy_examples files = files := by
  unfold copy_examples
  rw [copy_examples_foldl files hnd [] (by simp)]
  simp

theorem publishBody_clone_error (env : Env) (lib_id : Nat) (v : Version)
    (ps : List String) (f : Bool) (e : Exc)
    (hclone : cloneStep env ("library-" ++ toString lib_id) = .error e) :
    publishBody env lib_id v ps f =
      { tree := none, commits := [], pushes := [], err := some e, skipped := false } := by
  simp only [publishBody]
  rw [hclone]

theorem publishBody_skip (env : Env) (lib_id : Nat) (v : Version)
    (ps : List String) (f : Bool) (t0 : WorkTree)
    (hclone : cloneStep env ("library-" ++ toString lib_id) = .ok t0)
    (hgate : versionGate t0 v f = .skip) :
    publishBody env lib_id v ps f =
      { tree := some t0, commits := [], pushes := [], err := none, skipped := true } := by
  simp only [publishBody]
  rw [hclone]
  simp only [hgate]

theorem publishBody_proceed (env : Env) (lib_id : Nat) (v : Version)
    (ps : List String) (f : Bool) (t0 : WorkTree)
    (hclone : cloneStep env ("library-" ++ toString lib_id) = .ok t0)
    (hgate : versionGate t0 v f = .proceed) :
    publishBody env lib_id v ps f =
      stageAndCommit env ("library-" ++ toString lib_id) t0 lib_id v ps := by
  simp only [publishBody]
  rw [hclone]
  simp only [hgate]

/-- The working tree produced by a completed staging pass of
`think_of_name_later` (version file rewritten, examples replaced, Travis
config rendered). -/
def stagedResultTree (v : Version) (files : List (String × String))
    (ps : List String) (lib_id : Nat) : WorkTree :=
  { versionFile := some (.parsed v)
    examplesDir := some (copy_examples files)
    travisFile := some (TRAVIS_CONFIG_TEMPLATE_format
      (env_lines (files.map (fun f => "examples/" ++ f.1)))
      (board_flags ps) v.name (toString lib_id)) }

theorem stageAndCommit_listdir_fail (env : Env) (bn : String) (t0 : WorkTree)
    (lib_id : Nat) (v : Version) (ps : List String)
    (hex : env.libexampleDir = none) :
    stageAndCommit env bn t0 lib_id v ps =
      { tree := some { versionFile := some (.parsed v), examplesDir := some [],
                       travisFile := t0.travisFile }
        commits := [], pushes := [], err := some (.osError "listdir"),
        skipped := false } := by
  simp only [stageAndCommit, hex]

theorem stageAndCommit_success (env : Env) (bn : String) (t0 : WorkTree)
    (lib_id : Nat) (v : Version) (ps : List String)
    (files : List (String × String))
    (hex : env.libexampleDir = some files) (hpush : env.pushOk = true) :
    stageAndCommit env bn t0 lib_id v ps =
      { tree := some (stagedResultTree v files ps lib_id)
        commits := [COMMIT_MESSAGE_format v.name]
        pushes := [(bn, stagedResultTree v files ps lib_id)]
        err := none, skipped := false } := by
  simp only [stageAndCommit, stagedResultTree, hex, hpush, if_true]

theorem stageAndCommit_push_fail (env : Env) (bn : String) (t0 : WorkTree)
    (lib_id : Nat) (v : Version) (ps : List String)
    (files : List (String × String))
    (hex : env.libexampleDir = some files) (hpush : env.pushOk = false) :
    stageAndCommit env bn t0 lib_id v ps =
      { tree := some (stagedResultTree v files ps lib_id)
        commits := [COMMIT_MESSAGE_format v.name]
        pushes := [], err := some (.osError "push"), skipped := false } := by
  simp only [stageAndCommit, stagedResultTree, hex, hpush]
  rw [if_neg (by decide : ¬ (false = true))]

theorem string_append_assoc (a b c : String) : a ++ b ++ c = a ++ (b ++ c) := by
  apply String.ext
  simp only [String.data_append, List.append_assoc]

theorem foldl_append_eq_flatten {α β : Type} (g : α → List β) (l : List α) :
    ∀ acc : List β, l.foldl (fun acc x => acc ++ g x) acc = acc ++ (l.map g).flatten := by
  induction l with
  | nil => intro acc; simp
  | cons x rest ih => intro acc; simp [ih]

theorem flatten_nil_of_all_nil {α : Type} (L : List (List α)) (h : ∀ l ∈ L, l = []) :
    L.flatten = [] := by
  induction L with
  | nil => rfl
  | cons x rest ih =>
    simp only [List.flatten_cons, h x (List.mem_cons_self _ _)]
    exact ih (fun l hl => h l (List.mem_cons_of_mem _ hl))

theorem BOARDS_lookup_unknown (p : String) (h1 : p ≠ "atmelavr") (h2 : p ≠ "teensy") :
    BOARDS.lookup p = none := by
  have e1 : (p == "atmelavr") = false := beq_eq_false_iff_ne.mpr h1
  have e2 : (p == "teensy") = false := beq_eq_false_iff_ne.mpr h2
  simp [BOARDS, List.lookup, e1, e2]

/-! ### Claims -/

/-- C3: every exception raised during the body of `think_of_name_later` is
caught by the catch-all at source lines 154-155, logged and swallowed, so the
call returns normally (raises nothing) for every environment, library id,
version, platform list and force flag; at most the body's failure is recorded. -/
theorem C3_publish_swallows_exceptions (env : Env) (lib_id : Nat) (v : Version)
    (ps : List String) (f : Bool) :
    (think_of_name_later env lib_id v ps f).raised = none := rfl

/-- C4: after every `think_of_name_later` call — normal return, idempotency
skip, or an error in the body — the `finally` block at source lines 157-159
has removed the temporary checkout directory and restored the process working
directory to its pre-call value. -/
theorem C4_cleanup_guarantee (env : Env) (lib_id : Nat) (v : Version)
    (ps : List String) (f : Bool) :
    (think_of_name_later env lib_id v ps f).tmpDirExists = false ∧
    (think_of_name_later env lib_id v ps f).finalCwd = env.cwd0 :=
  ⟨rfl, rfl⟩

/-- C9: `think_of_name_later_by_id` fetches `<registry-base>/lib/info/<id>`,
extracts the response's `version` and `platforms` fields and passes them to
`think_of_name_later` (with `force` unset); any failure of the fetch or of
JSON decoding propagates to the caller uncaught. -/
theorem C9_publish_by_id_propagates (http_get : String → Except Exc RegInfo)
    (env : Env) (lib_id : Nat) :
    (∀ e, http_get ("http://api.platformio.org/lib/info/" ++ toString lib_id) = .error e →
      think_of_name_later_by_id http_get env lib_id = .error e) ∧
    (∀ info, http_get ("http://api.platformio.org/lib/info/" ++ toString lib_id) = .ok info →
      think_of_name_later_by_id http_get env lib_id =
        .ok (think_of_name_later env lib_id info.version info.platforms false)) := by
  constructor
  · intro e he
    simp only [think_of_name_later_by_id]
    rw [he]
  · intro info hi
    simp only [think_of_name_later_by_id]
    rw [hi]

def demoHttpFail : String → Except Exc RegInfo := fun _ => .error (.osError "conn")

/-- Witness for C9 at a concrete failing registry. -/
theorem C9_witness :
    think_of_name_later_by_id demoHttpFail demoEnv 7 = .error (.osError "conn") :=
  (C9_publish_by_id_propagates demoHttpFail demoEnv 7).1 (.osError "conn") rfl

/-- C10: `get_boards_by_platforms` is the in-order concatenation of the
static table's entries for each listed platform (duplicates preserved); for a
platform list none of whose elements is in the static table the board list is
empty and the rendered CI build command carries no `--board=` flag at all —
unknown platforms are silently skipped, never an error. -/
theorem C10_unknown_platforms_silently_skipped (ps : List String) :
    get_boards_by_platforms ps =
      (ps.map (fun p => (BOARDS.lookup p).getD [])).flatten ∧
    ((∀ p ∈ ps, p ≠ "atmelavr" ∧ p ≠ "teensy") →
      get_boards_by_platforms ps = [] ∧ board_flags ps = "" ∧
      ¬ List.IsInfix "--board=".data (travis_ci_line (board_flags ps)).data) := by
  have hjoin : get_boards_by_platforms ps =
      (ps.map (fun p => (BOARDS.lookup p).getD [])).flatten := by
    unfold get_boards_by_platforms
    rw [foldl_append_eq_flatten (fun p => (BOARDS.lookup p).getD []) ps []]
    simp
  refine ⟨hjoin, fun h => ?_⟩
  have hempty : get_boards_by_platforms ps = [] := by
    rw [hjoin]
    apply flatten_nil_of_all_nil
    intro l hl
    obtain ⟨p, hp, rfl⟩ := List.mem_map.mp hl
    rw [BOARDS_lookup_unknown p (h p hp).1 (h p hp).2]
    rfl
  have hflags : board_flags ps = "" := by
    unfold board_flags
    rw [hempty]
    rfl
  refine ⟨hempty, hflags, ?_⟩
  rw [hflags]
  decide

/-- Witness for C10 at a concrete unknown platform list. -/
theorem C10_witness :
    get_boards_by_platforms ["espressif", "ststm32"] = [] ∧
    board_flags ["espressif", "ststm32"] = "" := by
  have h := (C10_unknown_platforms_silently_skipped ["espressif", "ststm32"]).2 (by decide)
  exact ⟨h.1, h.2.1⟩

theorem think_body_eq (env : Env) (lib_id : Nat) (v : Version) (ps : List String)
    (f : Bool) :
    (think_of_name_later env lib_id v ps f).body = publishBody env lib_id v ps f := rfl

theorem publishBody_load_error (env : Env) (lib_id : Nat) (v : Version)
    (ps : List String) (f : Bool) (t0 : WorkTree)
    (hclone : cloneStep env ("library-" ++ toString lib_id) = .ok t0)
    (hgate : versionGate t0 v f = .loadError) :
    publishBody env lib_id v ps f =
      { tree := some t0, commits := [], pushes := [],
        err := some (.osError "json load"), skipped := false } := by
  simp only [publishBody]
  rw [hclone]
  simp only [hgate]

theorem publishBody_tree_after_staging (env : Env) (lib_id : Nat) (v : Version)
    (ps : List String) (f : Bool) (t0 : WorkTree) (files : List (String × String))
    (hclone : cloneStep env ("library-" ++ toString lib_id) = .ok t0)
    (hgate : versionGate t0 v f = .proceed)
    (hex : env.libexampleDir = some files) :
    (publishBody env lib_id v ps f).tree = some (stagedResultTree v files ps lib_id) := by
  rw [publishBody_proceed env lib_id v ps f t0 hclone hgate]
  cases hp : env.pushOk
  · rw [stageAndCommit_push_fail env _ t0 lib_id v ps files hex hp]
  · rw [stageAndCommit_success env _ t0 lib_id v ps files hex hp]

theorem shallow_clone_of_success (cl : String → CloneResult) (bn : String)
    (t : WorkTree) (h : cl bn = .success t) :
    shallow_clone_branch cl bn = .ok t := by
  unfold shallow_clone_branch
  rw [h]

theorem cloneStep_of_success (env : Env) (bn : String) (t : WorkTree)
    (h : env.clone bn = .success t) : cloneStep env bn = .ok t := by
  unfold cloneStep
  rw [shallow_clone_of_success env.clone bn t h]

theorem cloneStep_notFound (env : Env) (bn : String)
    (hn : shallow_clone_branch env.clone bn = .error (.remoteBranchNotFound bn)) :
    cloneStep env bn = shallow_clone_branch env.clone "master" := by
  unfold cloneStep
  rw [hn]
  cases hm : shallow_clone_branch env.clone "master" with
  | ok t => rfl
  | error e => rfl

theorem cloneStep_other_error (env : Env) (bn : String) (e : Exc)
    (he : shallow_clone_branch env.clone bn = .error e)
    (hne : ∀ b', e ≠ .remoteBranchNotFound b') :
    cloneStep env bn = .error e := by
  unfold cloneStep
  rw [he]
  cases e with
  | remoteBranchNotFound b' => exact absurd rfl (hne b')
  | gitCommandError s => rfl
  | indexError => rfl
  | osError m => rfl

theorem shallow_clone_failure_notFound (cl : String → CloneResult) (b stderr : String)
    (hc : cl b = .failure stderr) :
    (shallow_clone_branch cl b = .error (.remoteBranchNotFound b)) ↔
      branch_not_found_reported b stderr := by
  simp only [shallow_clone_branch, hc]
  unfold branch_not_found_reported
  split_ifs with h0 h2 h3 <;> simp_all

theorem shallow_clone_notFound_iff (cl : String → CloneResult) (b : String) :
    shallow_clone_branch cl b = .error (.remoteBranchNotFound b) ↔
      ∃ stderr, cl b = .failure stderr ∧ branch_not_found_reported b stderr := by
  cases hc : cl b with
  | success t =>
    rw [shallow_clone_of_success cl b t hc]
    constructor
    · intro h; exact absurd h (by simp)
    · rintro ⟨s, hs, _⟩; exact absurd hs (by simp)
  | failure stderr =>
    rw [shallow_clone_failure_notFound cl b stderr hc]
    constructor
    · intro h; exact ⟨stderr, rfl, h⟩
    · rintro ⟨s, hs, hr⟩
      rw [CloneResult.failure.inj hs]
      exact hr

theorem publishBody_push_tree (env : Env) (lib_id : Nat) (v : Version)
    (ps : List String) (f : Bool) (b : String) (t : WorkTree)
    (hp : (publishBody env lib_id v ps f).pushes = [(b, t)]) :
    t.versionFile = some (.parsed v) := by
  cases hc : cloneStep env ("library-" ++ toString lib_id) with
  | error e =>
    rw [publishBody_clone_error env lib_id v ps f e hc] at hp
    simp at hp
  | ok t0 =>
    cases hg : versionGate t0 v f with
    | skip =>
      rw [publishBody_skip env lib_id v ps f t0 hc hg] at hp
      simp at hp
    | loadError =>
      rw [publishBody_load_error env lib_id v ps f t0 hc hg] at hp
      simp at hp
    | proceed =>
      rw [publishBody_proceed env lib_id v ps f t0 hc hg] at hp
      cases hex : env.libexampleDir with
      | none =>
        rw [stageAndCommit_listdir_fail env _ t0 lib_id v ps hex] at hp
        simp at hp
      | some files =>
        cases hpu : env.pushOk
        · rw [stageAndCommit_push_fail env _ t0 lib_id v ps files hex hpu] at hp
          simp at hp
        · rw [stageAndCommit_success env _ t0 lib_id v ps files hex hpu] at hp
          simp at hp
          rw [← hp.2]
          rfl

/-- Modelled from the spec: the CI configuration as the specification
describes it — the fixed template with an `env:` block holding one
`PLATFORMIO_CI_SRC=<path>` line per staged example path (in staging order),
a library-install command parameterized by `--version=<versionName>
<libraryId>`, and a build command carrying one `--board=<name>` flag per
resolved board, space-separated in resolution order. -/
def ciConfigSpec (examplePaths boards : List String)
    (versionName libraryId : String) : String :=
  TRAVIS_HEADER ++
    String.intercalate "\n" (examplePaths.map (fun p => "    - PLATFORMIO_CI_SRC=" ++ p)) ++
    TRAVIS_MIDDLE ++ versionName ++ " " ++ libraryId ++ "\n" ++
    "    - platformio --force ci " ++
    String.intercalate " " (boards.map (fun b => "--board=" ++ b)) ++ "\n"

theorem ciConfigSpec_eq_template (paths boards : List String) (vn lid : String) :
    ciConfigSpec paths boards vn lid =
      TRAVIS_CONFIG_TEMPLATE_format (env_lines paths)
        (String.intercalate " " (boards.map (fun b => "--board=" ++ b))) vn lid := by
  unfold ciConfigSpec TRAVIS_CONFIG_TEMPLATE_format travis_ci_line env_lines
  simp only [string_append_assoc]

/-- C7: the CI configuration written on a staging pass has exactly the fixed
template structure the specification describes: one `PLATFORMIO_CI_SRC`
environment line per staged example path in staging order, the
library-install command parameterized by the version name and library id,
and the build command with one `--board=` flag per resolved board in
resolution order, space-separated. -/
theorem C7_travis_config_structure (env : Env) (lib_id : Nat) (v : Version)
    (ps : List String) (f : Bool) (t0 : WorkTree) (files : List (String × String))
    (hclone : cloneStep env ("library-" ++ toString lib_id) = .ok t0)
    (hgate : versionGate t0 v f = .proceed)
    (hex : env.libexampleDir = some files) :
    ∃ t, (think_of_name_later env lib_id v ps f).body.tree = some t ∧
      t.travisFile = some (ciConfigSpec (files.map (fun fl => "examples/" ++ fl.1))
        (get_boards_by_platforms ps) v.name (toString lib_id)) := by
  refine ⟨stagedResultTree v files ps lib_id, ?_, ?_⟩
  · rw [think_body_eq]
    exact publishBody_tree_after_staging env lib_id v ps f t0 files hclone hgate hex
  · rw [ciConfigSpec_eq_template]
    rfl

/-- Witness for C7 at a concrete successful publish. -/
theorem C7_witness :
    ∃ t, (think_of_name_later demoEnv 7 demoVersion ["teensy"] false).body.tree = some t ∧
      t.travisFile = some (ciConfigSpec
        ([("Blink.ino", "void loop()"), ("Fade.ino", "analogWrite")].map
          (fun fl => "examples/" ++ fl.1))
        (get_boards_by_platforms ["teensy"]) demoVersion.name (toString 7)) :=
  C7_travis_config_structure demoEnv 7 demoVersion ["teensy"] false emptyTree
    [("Blink.ino", "void loop()"), ("Fade.ino", "analogWrite")] (by rfl) (by rfl) (by rfl)

/-- C1 (amended): the board list interpolated into the CI script always comes
from the static platform→boards table (`get_boards_by_platforms` over
`BOARDS`); the registry-backed lookup `get_all_boards_by_platforms` is
defined but never consulted when rendering the CI configuration. -/
theorem C1_boards_always_from_static_table (env : Env) (lib_id : Nat) (v : Version)
    (ps : List String) (f : Bool) (t0 : WorkTree) (files : List (String × String))
    (hclone : cloneStep env ("library-" ++ toString lib_id) = .ok t0)
    (hgate : versionGate t0 v f = .proceed)
    (hex : env.libexampleDir = some files) :
    ∃ t, (think_of_name_later env lib_id v ps f).body.tree = some t ∧
      t.travisFile = some (TRAVIS_CONFIG_TEMPLATE_format
        (env_lines (files.map (fun fl => "examples/" ++ fl.1)))
        (String.intercalate " "
          ((get_boards_by_platforms ps).map (fun b => "--board=" ++ b)))
        v.name (toString lib_id)) := by
  refine ⟨stagedResultTree v files ps lib_id, ?_, rfl⟩
  rw [think_body_eq]
  exact publishBody_tree_after_staging env lib_id v ps f t0 files hclone hgate hex

/-- Witness for the amended C1 at a concrete successful publish. -/
theorem C1_witness :
    ∃ t, (think_of_name_later demoEnv 7 demoVersion ["atmelavr"] false).body.tree = some t ∧
      t.travisFile = some (TRAVIS_CONFIG_TEMPLATE_format
        (env_lines ([("Blink.ino", "void loop()"), ("Fade.ino", "analogWrite")].map
          (fun fl => "examples/" ++ fl.1)))
        (String.intercalate " "
          ((get_boards_by_platforms ["atmelavr"]).map (fun b => "--board=" ++ b)))
        demoVersion.name (toString 7)) :=
  C1_boards_always_from_static_table demoEnv 7 demoVersion ["atmelavr"] false emptyTree
    [("Blink.ino", "void loop()"), ("Fade.ino", "analogWrite")] (by rfl) (by rfl) (by rfl)

def demoRegistry : List (String × Option String) := [("zboard", some "atmelavr")]

set_option maxRecDepth 8192 in
/-- C1 counterexample: a registry lookup that does yield a board for
`atmelavr` — yet the CI config published for `["atmelavr"]` carries the
static table's board flags, which differ from the registry-derived ones, so
the dynamic lookup is not preferred. -/
theorem C1_counterexample_registry_ignored :
    get_all_boards_by_platforms demoRegistry ["atmelavr"] = ["zboard"] ∧
    ((think_of_name_later demoEnv 7 demoVersion ["atmelavr"] false).body.tree.map
        WorkTree.travisFile) =
      some (some (TRAVIS_CONFIG_TEMPLATE_format
        (env_lines ["examples/Blink.ino", "examples/Fade.ino"])
        "--board=uno --board=leonardo --board=megaatmega2560" "1.2.3" "7")) ∧
    TRAVIS_CONFIG_TEMPLATE_format
        (env_lines ["examples/Blink.ino", "examples/Fade.ino"])
        "--board=uno --board=leonardo --board=megaatmega2560" "1.2.3" "7" ≠
      TRAVIS_CONFIG_TEMPLATE_format
        (env_lines ["examples/Blink.ino", "examples/Fade.ino"])
        (String.intercalate " "
          ((get_all_boards_by_platforms demoRegistry ["atmelavr"]).map
            (fun b => "--board=" ++ b)))
        "1.2.3" "7" :=
  ⟨by decide, by decide, by decide⟩

/-- C8: with platform list `["atmelavr"]` and the registry lookup empty for
that platform, the CI config written on a staging pass carries exactly
`--board=uno --board=leonardo --board=megaatmega2560` — the static table's
entry, in table order — in the build command slot. -/
theorem C8_atmelavr_static_fallback (reg : List (String × Option String))
    (env : Env) (lib_id : Nat) (v : Version) (f : Bool) (t0 : WorkTree)
    (files : List (String × String))
    (hreg : get_all_boards_by_platforms reg ["atmelavr"] = [])
    (hclone : cloneStep env ("library-" ++ toString lib_id) = .ok t0)
    (hgate : versionGate t0 v f = .proceed)
    (hex : env.libexampleDir = some files) :
    board_flags ["atmelavr"] = "--board=uno --board=leonardo --board=megaatmega2560" ∧
    ∃ t, (think_of_name_later env lib_id v ["atmelavr"] f).body.tree = some t ∧
      t.travisFile = some (TRAVIS_CONFIG_TEMPLATE_format
        (env_lines (files.map (fun fl => "examples/" ++ fl.1)))
        "--board=uno --board=leonardo --board=megaatmega2560" v.name (toString lib_id)) := by
  have hbf : board_flags ["atmelavr"] =
      "--board=uno --board=leonardo --board=megaatmega2560" := by decide
  refine ⟨hbf, stagedResultTree v files ["atmelavr"] lib_id, ?_, ?_⟩
  · rw [think_body_eq]
    exact publishBody_tree_after_staging env lib_id v ["atmelavr"] f t0 files hclone hgate hex
  · rw [← hbf]
    rfl

/-- Witness for C8 with an empty registry and a concrete publish. -/
theorem C8_witness :
    board_flags ["atmelavr"] = "--board=uno --board=leonardo --board=megaatmega2560" ∧
    ∃ t, (think_of_name_later demoEnv 7 demoVersion ["atmelavr"] false).body.tree = some t ∧
      t.travisFile = some (TRAVIS_CONFIG_TEMPLATE_format
        (env_lines ([("Blink.ino", "void loop()"), ("Fade.ino", "analogWrite")].map
          (fun fl => "examples/" ++ fl.1)))
        "--board=uno --board=leonardo --board=megaatmega2560" demoVersion.name (toString 7)) :=
  C8_atmelavr_static_fallback [] demoEnv 7 demoVersion false emptyTree
    [("Blink.ino", "void loop()"), ("Fade.ino", "analogWrite")]
    rfl (by rfl) (by rfl) (by rfl)

/-- C6: on every publish that passes the idempotency gate (with the example
source directory readable and its filenames distinct, as `os.listdir`
yields), `examples/` is cleared and repopulated with exactly one verbatim
copy of each source file, filenames preserved: the staged tree's `examples/`
holds exactly the source directory's files and nothing staged earlier
survives. -/
theorem C6_examples_fully_replaced (env : Env) (lib_id : Nat) (v : Version)
    (ps : List String) (f : Bool) (t0 : WorkTree) (files : List (String × String))
    (hclone : cloneStep env ("library-" ++ toString lib_id) = .ok t0)
    (hgate : versionGate t0 v f = .proceed)
    (hex : env.libexampleDir = some files)
    (hnd : (files.map Prod.fst).Nodup) :
    ∃ t, (think_of_name_later env lib_id v ps f).body.tree = some t ∧
      t.examplesDir = some files := by
  refine ⟨stagedResultTree v files ps lib_id, ?_, ?_⟩
  · rw [think_body_eq]
    exact publishBody_tree_after_staging env lib_id v ps f t0 files hclone hgate hex
  · simp only [stagedResultTree]
    rw [copy_examples_eq_self files hnd]

/-- Witness for C6: the branch previously held `old.ino`; after the publish
only `new.ino` (the source directory's sole file) is staged. -/
theorem C6_witness :
    ∃ t, (think_of_name_later demoEnvStaged 7 demoVersion ["atmelavr"] true).body.tree =
        some t ∧
      t.examplesDir = some [("new.ino", "fresh")] :=
  C6_examples_fully_replaced demoEnvStaged 7 demoVersion ["atmelavr"] true stagedTree
    [("new.ino", "fresh")] (by rfl) (by rfl) (by rfl) (by decide)

/-- C2: when the branch's `_version.json` exists, parses to the requested
version, and `force` is unset, the publish makes no commit, no push, and
rewrites nothing (tree unchanged); consequently a second publish of the same
id and version (force unset) right after a successful first one commits and
pushes nothing; with `force` set the publish proceeds to commit and push
despite the equality. -/
theorem C2_idempotency_gate (env env2 : Env) (lib_id : Nat) (v : Version)
    (ps ps2 : List String) (t0 : WorkTree) :
    (cloneStep env ("library-" ++ toString lib_id) = .ok t0 →
      t0.versionFile = some (.parsed v) →
      (think_of_name_later env lib_id v ps false).body =
        { tree := some t0, commits := [], pushes := [], err := none, skipped := true }) ∧
    (∀ b t, (think_of_name_later env lib_id v ps false).body.pushes = [(b, t)] →
      env2.clone ("library-" ++ toString lib_id) = .success t →
      (think_of_name_later env2 lib_id v ps2 false).body.commits = [] ∧
      (think_of_name_later env2 lib_id v ps2 false).body.pushes = []) ∧
    (∀ files, cloneStep env ("library-" ++ toString lib_id) = .ok t0 →
      t0.versionFile = some (.parsed v) →
      env.libexampleDir = some files → env.pushOk = true →
      (think_of_name_later env lib_id v ps true).body.commits =
        [COMMIT_MESSAGE_format v.name] ∧
      (think_of_name_later env lib_id v ps true).body.pushes =
        [("library-" ++ toString lib_id, stagedResultTree v files ps lib_id)]) := by
  refine ⟨?_, ?_, ?_⟩
  · intro hclone hvf
    have hgate : versionGate t0 v false = .skip := by
      unfold versionGate
      rw [hvf]
      simp
    rw [think_body_eq]
    exact publishBody_skip env lib_id v ps false t0 hclone hgate
  · intro b t hp hclone2
    rw [think_body_eq] at hp
    have hvf : t.versionFile = some (.parsed v) :=
      publishBody_push_tree env lib_id v ps false b t hp
    have hgate : versionGate t v false = .skip := by
      unfold versionGate
      rw [hvf]
      simp
    have hskip := publishBody_skip env2 lib_id v ps2 false t
      (cloneStep_of_success env2 _ t hclone2) hgate
    rw [think_body_eq, hskip]
    exact ⟨rfl, rfl⟩
  · intro files hclone hvf hex hpush
    have hgate : versionGate t0 v true = .proceed := by
      unfold versionGate
      rw [hvf]
      simp
    have hb := publishBody_proceed env lib_id v ps true t0 hclone hgate
    rw [think_body_eq, hb,
      stageAndCommit_success env _ t0 lib_id v ps files hex hpush]
    exact ⟨rfl, rfl⟩

/-- Witness for C2: the staged version equals the requested one, so the
second publish skips — and with force it pushes. -/
theorem C2_witness :
    (think_of_name_later demoEnvStaged 7 demoVersion ["atmelavr"] false).body =
      { tree := some stagedTree, commits := [], pushes := [], err := none,
        skipped := true } ∧
    (think_of_name_later demoEnvStaged 7 demoVersion ["atmelavr"] true).body.pushes =
      [("library-" ++ toString 7,
        stagedResultTree demoVersion [("new.ino", "fresh")] ["atmelavr"] 7)] :=
  ⟨(C2_idempotency_gate demoEnvStaged demoEnvStaged 7 demoVersion ["atmelavr"] ["atmelavr"]
      stagedTree).1 (by rfl) (by rfl),
   ((C2_idempotency_gate demoEnvStaged demoEnvStaged 7 demoVersion ["atmelavr"] ["atmelavr"]
      stagedTree).2.2 [("new.ino", "fresh")] (by rfl) (by rfl) (by rfl) (by rfl)).2⟩

/-- C5: `shallow_clone_branch` recovers via `RemoteBranchNotFound` exactly
when the failed clone's `stderr` reports the missing remote branch; for the
branch `library-<id>` that recovery makes `think_of_name_later` fall back to
shallow-cloning `master` (the orphan branch keeps master's working tree);
every other clone failure propagates out of the clone step and aborts the
publish attempt with no commit and no push. -/
theorem C5_clone_fallback_characterization (env : Env) (lib_id : Nat) (v : Version)
    (ps : List String) (f : Bool) :
    (∀ cl b, shallow_clone_branch cl b = .error (.remoteBranchNotFound b) ↔
      ∃ stderr, cl b = .failure stderr ∧ branch_not_found_reported b stderr) ∧
    (shallow_clone_branch env.clone ("library-" ++ toString lib_id) =
        .error (.remoteBranchNotFound ("library-" ++ toString lib_id)) →
      cloneStep env ("library-" ++ toString lib_id) =
        shallow_clone_branch env.clone "master") ∧
    (∀ e, shallow_clone_branch env.clone ("library-" ++ toString lib_id) = .error e →
      (∀ b', e ≠ .remoteBranchNotFound b') →
      cloneStep env ("library-" ++ toString lib_id) = .error e ∧
      (think_of_name_later env lib_id v ps f).body.err = some e ∧
      (think_of_name_later env lib_id v ps f).body.commits = [] ∧
      (think_of_name_later env lib_id v ps f).body.pushes = []) := by
  refine ⟨shallow_clone_notFound_iff, ?_, ?_⟩
  · intro hn
    exact cloneStep_notFound env _ hn
  · intro e he hne
    have hcs := cloneStep_other_error env _ e he hne
    have hb := publishBody_clone_error env lib_id v ps f e hcs
    rw [think_body_eq, hb]
    exact ⟨hcs, rfl, rfl, rfl⟩

/-- A remote whose branch `library-8` is missing (the clone's `stderr`
reports it) while `master` exists. -/
def demoEnvNoBranch : Env :=
  { clone := fun b =>
      if b = "master" then .success emptyTree
      else .failure
        "Cloning into t...\nfatal: Remote branch library-8 not found in upstream origin\n"
    libexampleDir := some [("Demo.ino", "setup")]
    pushOk := true
    cwd0 := "/home/user"
    tmpDir := "/tmp/pioapi-libbuild-8-xyz" }

/-- Witness for C5: the missing branch falls back to cloning `master`; an
unrelated git failure aborts the publish with no commit and no push. -/
theorem C5_witness :
    cloneStep demoEnvNoBranch ("library-" ++ toString 8) =
      shallow_clone_branch demoEnvNoBranch.clone "master" ∧
    (think_of_name_later demoEnvGitFail 9 demoVersion [] false).body.err =
      some (.gitCommandError "error: x\nfatal: other\n") ∧
    (think_of_name_later demoEnvGitFail 9 demoVersion [] false).body.pushes = [] :=
  ⟨(C5_clone_fallback_characterization demoEnvNoBranch 8 demoVersion [] false).2.1 (by rfl),
   ((C5_clone_fallback_characterization demoEnvGitFail 9 demoVersion [] false).2.2
      (.gitCommandError "error: x\nfatal: other\n") (by rfl)
      (fun b' h => Exc.noConfusion h)).2.1,
   ((C5_clone_fallback_characterization demoEnvGitFail 9 demoVersion [] false).2.2
      (.gitCommandError "error: x\nfatal: other\n") (by rfl)
      (fun b' h => Exc.noConfusion h)).2.2.2⟩
